import Mathlib

/-!
Verification development for the mcp-hemnet extraction-and-query pipeline.

The definitions below are a shallow embedding of the TypeScript source
(`src/server.ts` section of the repository): the query builder
(`buildSearchUrl`), the location resolver (`findLocationId` with the
`COMMON_LOCATIONS` table), the page fetcher (`fetchPage` over the
rendering backend), and the cheerio-based field extractors
(`searchHemnet` summary extraction and `getListingDetails`).

Markup is modelled as a node tree (`HNode`); the cheerio parse step
itself (htmlparser2) is external and not modelled: a rendered page is
carried as the pair of its parsed tree and its raw markup string, since
the source applies some checks to the raw string and others to the
parsed tree.  JavaScript regular expressions used by the source are
transcribed into a small backtracking matcher (`RItem`) whose semantics
follows JS regexes on the constructs the source uses (greedy/lazy
character-class quantifiers, two-way alternation, flat capture groups,
a single-character negative lookahead, end anchors).  JS string
truthiness (`if (x)` for an optional number/string/bool) is translated
explicitly at each use site.  All definitions are executable.
-/

/-! ### String utilities -/

/-- Does `s` start with the character list `pat`? -/
def chStarts : List Char → List Char → Bool
  | [], _ => true
  | _ :: _, [] => false
  | a :: as, b :: bs => a = b && chStarts as bs

/-- Does the character list `s` contain `pat` as a contiguous run?  Models
`String.prototype.includes`. -/
def chHasSub (pat : List Char) : List Char → Bool
  | [] => chStarts pat []
  | c :: cs => chStarts pat (c :: cs) || chHasSub pat cs

/-- `sContains s pat` models the JS expression `s.includes(pat)`. -/
def sContains (s pat : String) : Bool :=
  chHasSub pat.toList s.toList

/-- Lower-casing of a single character as done by
`String.prototype.toLowerCase`, restricted to the ASCII and Latin-1
ranges (which cover every character appearing in the source tables,
in particular the Swedish letters in the location keys). -/
def jsLowerChar (c : Char) : Char :=
  if 'A' ≤ c ∧ c ≤ 'Z' then Char.ofNat (c.toNat + 32)
  else if 0xC0 ≤ c.toNat ∧ c.toNat ≤ 0xDE ∧ c.toNat ≠ 0xD7 then Char.ofNat (c.toNat + 32)
  else c

/-- Models `s.toLowerCase()` (ASCII and Latin-1 letters). -/
def jsToLower (s : String) : String :=
  String.mk (s.toList.map jsLowerChar)

/-- Replace the first occurrence of `pat` in `s` by `repl`; models the JS
expression `s.replace(pat, repl)` with a plain-string pattern. -/
def chReplFirst (pat repl : List Char) : List Char → List Char
  | [] => []
  | c :: cs =>
    if chStarts pat (c :: cs) then
      repl ++ (c :: cs).drop pat.length
    else
      c :: chReplFirst pat repl cs

/-- Models `s.replace(pat, repl)` for a plain-string `pat` (first
occurrence only, as in JS). -/
def sReplaceFirst (s pat repl : String) : String :=
  String.mk (chReplFirst pat.toList repl.toList s.toList)

/-- Models `s.trim()`: leading and trailing whitespace removed.
(Implemented over the character list so that it evaluates inside the
kernel; the core `String.trim` recurses by well-founded byte positions
and does not.) -/
def jsTrim (s : String) : String :=
  String.mk (((s.toList.dropWhile Char.isWhitespace).reverse.dropWhile
    Char.isWhitespace).reverse)

/-- Models `s.substring(0, n)` (counting code points; the source counts
UTF-16 units, which agrees outside the astral planes). -/
def jsTake (s : String) (n : Nat) : String :=
  String.mk (s.toList.take n)

/-- Models `s.startsWith(pre)`. -/
def sStartsWith (s pre : String) : Bool :=
  chStarts pre.toList s.toList

/-- Models `parseInt(s, 10)` on an all-digit string (the only shape the
source feeds it). -/
def natOfDigits (s : String) : Option Nat :=
  if s.toList ≠ [] && s.toList.all Char.isDigit then
    some (s.toList.foldl (fun acc c => acc * 10 + (c.toNat - '0'.toNat)) 0)
  else none

/-! ### A small matcher for the JS regular expressions of the source

The source uses a fixed set of regex constructs: plain literals (with or
without the `i` flag), character classes under the quantifiers `?`, `*`,
`+` and `*?`, flat (non-nested) capture groups, a two-way alternation, a
single negative lookahead `(?!\/)`, and the anchors `$` (also with `m`)
and end-of-input.  `matchSeq` enumerates the backtracking outcomes in
the preference order of a JS engine (alternation left first, greedy
longest first, lazy shortest first); the head of the list is the match
a JS engine produces. -/

/-- Quantifier on a character class. -/
inductive RQuant where
  | one
  | opt
  | star
  | plus
  | lazyStar
deriving Repr

/-- One item of a transcribed regular expression. -/
inductive RItem where
  /-- Case-sensitive literal. -/
  | lit (w : String)
  /-- Case-insensitive literal (the `i` flag). -/
  | liti (w : String)
  /-- Character class under a quantifier. -/
  | cls (p : Char → Bool) (q : RQuant)
  /-- Capture group (the groups in the source are flat). -/
  | grp (g : List RItem)
  /-- Two-way alternation. -/
  | alt2 (a b : List RItem)
  /-- Negative lookahead on a single character class. -/
  | nla (p : Char → Bool)
  /-- End of input (the `$` anchor without the `m` flag). -/
  | eos
  /-- End of line (the `$` anchor under the `m` flag). -/
  | eolm

/-- Strip a case-sensitive literal from the front of the input. -/
def stripLit : List Char → List Char → Option (List Char)
  | [], s => some s
  | _ :: _, [] => none
  | a :: as, c :: cs => if a = c then stripLit as cs else none

/-- Strip a case-insensitive literal from the front of the input. -/
def stripLitCI : List Char → List Char → Option (List Char)
  | [], s => some s
  | _ :: _, [] => none
  | a :: as, c :: cs => if jsLowerChar a = jsLowerChar c then stripLitCI as cs else none

/-- Length of the maximal run of characters satisfying `p`. -/
def charRun (p : Char → Bool) : List Char → Nat
  | [] => 0
  | c :: cs => if p c then charRun p cs + 1 else 0

/-- Candidate consumption counts for a quantifier whose class has a
maximal run of length `n`, in JS preference order. -/
def quantChoices (q : RQuant) (n : Nat) : List Nat :=
  match q with
  | .one => if n ≥ 1 then [1] else []
  | .opt => if n ≥ 1 then [1, 0] else [0]
  | .star => (List.range (n + 1)).reverse
  | .plus => ((List.range n).map (· + 1)).reverse
  | .lazyStar => List.range (n + 1)

mutual

/-- All ways of matching one item at the front of the input, each as
(remaining input, captures), in JS preference order. -/
def matchOne : RItem → List Char → List (List Char × List String)
  | .lit w, s =>
    match stripLit w.toList s with
    | some s1 => [(s1, [])]
    | none => []
  | .liti w, s =>
    match stripLitCI w.toList s with
    | some s1 => [(s1, [])]
    | none => []
  | .cls p q, s =>
    (quantChoices q (charRun p s)).map fun k => (s.drop k, [])
  | .grp g, s =>
    (matchSeq g s).map fun pr =>
      (pr.1, String.mk (s.take (s.length - pr.1.length)) :: pr.2)
  | .alt2 a b, s => matchSeq a s ++ matchSeq b s
  | .nla p, s =>
    match s with
    | [] => [([], [])]
    | c :: cs => if p c then [] else [(c :: cs, [])]
  | .eos, s =>
    match s with
    | [] => [([], [])]
    | _ :: _ => []
  | .eolm, s =>
    match s with
    | [] => [([], [])]
    | c :: _ => if c = '\n' then [(s, [])] else []

/-- All backtracking outcomes of matching the item sequence at the front
of the input (first item's outcomes in preference order, each continued
through the remaining items), as (remaining input, captures). -/
def matchSeq : List RItem → List Char → List (List Char × List String)
  | [], s => [(s, [])]
  | it :: rest, s =>
    (matchOne it s).flatMap fun pr =>
      (matchSeq rest pr.1).map fun pr2 => (pr2.1, pr.2 ++ pr2.2)

end

/-- First match of the pattern scanning start positions left to right:
(matched substring, captures, input after the match).  Models
`String.prototype.match` without the `g` flag (`[0]` is the matched
substring, `[1]`, `[2]`, ... the captures). -/
def searchSplit (items : List RItem) : List Char → Option (String × List String × List Char)
  | [] =>
    match matchSeq items [] with
    | pr :: _ => some ("", pr.2, pr.1)
    | [] => none
  | c :: tail =>
    match matchSeq items (c :: tail) with
    | pr :: _ =>
      some (String.mk ((c :: tail).take ((c :: tail).length - pr.1.length)), pr.2, pr.1)
    | [] => searchSplit items tail

/-- First match (matched substring and captures) of a pattern in a
string; `none` models a `null` result of `String.prototype.match`. -/
def searchRe (items : List RItem) (s : String) : Option (String × List String) :=
  (searchSplit items s.toList).map fun r => (r.1, r.2.1)

/-- Match a pattern anchored at the start of the string (the `^` anchor). -/
def matchStart (items : List RItem) (s : String) : Option (String × List String) :=
  match matchSeq items s.toList with
  | pr :: _ => some (String.mk (s.toList.take (s.toList.length - pr.1.length)), pr.2)
  | [] => none

/-- All matched substrings, scanning as `String.prototype.match` with the
`g` flag (non-overlapping, left to right); the patterns it is used with
never match the empty string. -/
def matchAllFrom (items : List RItem) : Nat → List Char → List String
  | 0, _ => []
  | fuel + 1, s =>
    match searchSplit items s with
    | none => []
    | some (m, _, rest) =>
      if m.length = 0 then [] else m :: matchAllFrom items fuel rest

/-- All matches of a pattern in a string (the `g` flag). -/
def matchAllRe (items : List RItem) (s : String) : List String :=
  matchAllFrom items (s.toList.length + 1) s.toList

/-! Character classes appearing in the source regexes. -/

/-- The class `\d`. -/
def clsDigit (c : Char) : Bool := c.isDigit

/-- The class `\s` (the whitespace characters relevant here). -/
def clsSpace (c : Char) : Bool := c.isWhitespace

/-- The class `\S`. -/
def clsNonSpace (c : Char) : Bool := !c.isWhitespace

/-- The class `[\d\s]`. -/
def clsDigitSpace (c : Char) : Bool := c.isDigit || c.isWhitespace

/-- The class `[\d:]`. -/
def clsDigitColon (c : Char) : Bool := c.isDigit || c = ':'

/-- The class `[^>]`. -/
def clsNotGt (c : Char) : Bool := c ≠ '>'

/-- The class `[^<]`. -/
def clsNotLt (c : Char) : Bool := c ≠ '<'

/-- The class `[+-]`. -/
def clsSign (c : Char) : Bool := c = '+' || c = '-'

/-- The class `[,.]`. -/
def clsCommaDot (c : Char) : Bool := c = ',' || c = '.'

/-- The class `[\d.-]`. -/
def clsDigitDotDash (c : Char) : Bool := c.isDigit || c = '.' || c = '-'

/-! ### The source regexes, transcribed

Each definition names the regex literal from the source it transcribes. -/

/-- `/(\d[\d\s]*\d)\s*kr(?!\/)/` — price in a summary listing. -/
def rePrice : List RItem :=
  [.grp [.cls clsDigit .one, .cls clsDigitSpace .star, .cls clsDigit .one],
   .cls clsSpace .star, .lit "kr", .nla (fun c => c = '/')]

/-- `/(\d+)\s*rum/` — room count in a summary listing. -/
def reRooms : List RItem :=
  [.grp [.cls clsDigit .plus], .cls clsSpace .star, .lit "rum"]

/-- `/(\d+)\s*m²/` — living area in a summary listing. -/
def reArea : List RItem :=
  [.grp [.cls clsDigit .plus], .cls clsSpace .star, .lit "m²"]

/-- `/(\d[\d\s]*)\s*kr\/mån/` — monthly fee in a summary listing. -/
def reFee : List RItem :=
  [.grp [.cls clsDigit .one, .cls clsDigitSpace .star],
   .cls clsSpace .star, .lit "kr/mån"]

/-- `/\d[\d\s]*kr$/` — detail-page price candidate filter. -/
def reTrailingKr : List RItem :=
  [.cls clsDigit .one, .cls clsDigitSpace .star, .lit "kr", .eos]

/-- `/^\d[\d\s]*kr$/` — detail-page price candidate full test (used with
`matchStart` for the `^` anchor). -/
def reFullKr : List RItem :=
  [.cls clsDigit .one, .cls clsDigitSpace .star, .lit "kr", .eos]

/-- `/(?:Pris|price)[^>]*>[\s]*(\d[\d\s]+kr)(?:<|[\s]*$)/im` — detail-page
price fallback over the raw markup. -/
def rePriceFallback : List RItem :=
  [.alt2 [.liti "Pris"] [.liti "price"],
   .cls clsNotGt .star, .lit ">", .cls clsSpace .star,
   .grp [.cls clsDigit .one, .cls clsDigitSpace .plus, .liti "kr"],
   .alt2 [.liti "<"] [.cls clsSpace .star, .eolm]]

/-- `/\S+\s+\d+\s+\S*\s+kl\s+[\d:]+\s*-\s*[\d:]+/g` shape used for viewing
times: `/\S+\s+\d+\s+\S+\s+kl\s+[\d:]+\s*-\s*[\d:]+/g`. -/
def reViewing : List RItem :=
  [.cls clsNonSpace .plus, .cls clsSpace .plus, .cls clsDigit .plus,
   .cls clsSpace .plus, .cls clsNonSpace .plus, .cls clsSpace .plus,
   .lit "kl", .cls clsSpace .plus, .cls clsDigitColon .plus,
   .cls clsSpace .star, .lit "-", .cls clsSpace .star, .cls clsDigitColon .plus]

/-- `/\S+\s+\d+\s+\S+\s+kl\s+[\d:]+\s*-?\s*[\d:]*/` — viewing time from a
button label. -/
def reViewingBtn : List RItem :=
  [.cls clsNonSpace .plus, .cls clsSpace .plus, .cls clsDigit .plus,
   .cls clsSpace .plus, .cls clsNonSpace .plus, .cls clsSpace .plus,
   .lit "kl", .cls clsSpace .plus, .cls clsDigitColon .plus,
   .cls clsSpace .star, .cls (fun c => c = '-') .opt, .cls clsSpace .star,
   .cls clsDigitColon .star]

/-- `/^(\d+)\s*bilder$/` — image count (used with `matchStart`). -/
def reBilder : List RItem :=
  [.grp [.cls clsDigit .plus], .cls clsSpace .star, .lit "bilder", .eos]

/-- `/kontantinsats[^>]*>([^<]*\d+[^<]*kr)/i` — down payment over the raw
markup. -/
def reKontantinsats : List RItem :=
  [.liti "kontantinsats", .cls clsNotGt .star, .lit ">",
   .grp [.cls clsNotLt .star, .cls clsDigit .plus, .cls clsNotLt .star, .liti "kr"]]

/-- `/Prisutveckling[^%]*?([+-]?\d+[,.]?\d*\s*%)/` — area price trend over
the raw markup. -/
def reTrend : List RItem :=
  [.lit "Prisutveckling", .cls (fun c => c ≠ '%') .lazyStar,
   .grp [.cls clsSign .opt, .cls clsDigit .plus, .cls clsCommaDot .opt,
         .cls clsDigit .star, .cls clsSpace .star, .lit "%"]]

/-- `/snitt[^>]*>([^<]*\d[\d\s]*kr\/m)/i` — area average price per m². -/
def reAvgPrice : List RItem :=
  [.liti "snitt", .cls clsNotGt .star, .lit ">",
   .grp [.cls clsNotLt .star, .cls clsDigit .one, .cls clsDigitSpace .star,
         .liti "kr/m"]]

/-- `/(\d[\d\s]*kr\/m²)[^>]*snitt/i` — area average price per m²,
alternative shape. -/
def reAvgPriceAlt : List RItem :=
  [.grp [.cls clsDigit .one, .cls clsDigitSpace .star, .liti "kr/m²"],
   .cls clsNotGt .star, .liti "snitt"]

/-- `/ll=([\d.-]+),([\d.-]+)/` — coordinates in a Google Maps link. -/
def reCoords : List RItem :=
  [.lit "ll=", .grp [.cls clsDigitDotDash .plus], .lit ",",
   .grp [.cls clsDigitDotDash .plus]]

/-! ### The markup model

`HNode` is the parsed-markup tree the cheerio selectors of the source
walk over: element nodes with a tag, an attribute list and child nodes,
and text nodes.  `loadDoc` models the `html`/`head`/`body` wrapping that
`cheerio.load` applies to a fragment.  All collection functions below
produce nodes in document order (pre-order), which is the order cheerio
selections iterate in. -/

/-- A node of parsed markup. -/
inductive HNode where
  | text (s : String)
  | elem (tag : String) (attrs : List (String × String)) (children : List HNode)

/-- The full document produced by `cheerio.load` on a fragment. -/
def loadDoc (fragment : List HNode) : HNode :=
  .elem "html" [] [.elem "head" [] [], .elem "body" [] fragment]

mutual

/-- Text of one node (`$(el).text()`) and of a node list (all text
descendants, in document order). -/
def nodeText : HNode → String
  | .text s => s
  | .elem _ _ cs => listText cs

def listText : List HNode → String
  | [] => ""
  | n :: ns => nodeText n ++ listText ns

end

/-- Is the node an element? -/
def isElem : HNode → Bool
  | .elem .. => true
  | .text _ => false

/-- Tag of a node (text nodes have none). -/
def tagOf : HNode → String
  | .elem t _ _ => t
  | .text _ => ""

/-- First binding of an attribute, as `$(el).attr(name)`. -/
def getAttr (n : HNode) (name : String) : Option String :=
  match n with
  | .elem _ attrs _ => attrs.lookup name
  | .text _ => none

/-- The individual direct text-node children of an element, as
`$(el).contents().filter(text nodes)`. -/
def directTextNodes : HNode → List String
  | .text _ => []
  | .elem _ _ cs => cs.filterMap fun c =>
      match c with
      | .text s => some s
      | .elem .. => none

/-- Concatenation of an element's direct text-node children, as
`.contents().filter(text).text()`. -/
def directText (n : HNode) : String :=
  String.join (directTextNodes n)

mutual

/-- All elements in a node (descendants only) and in a node list, in
document order, each element before its descendants (models a
`$("*")`-style selection over the list). -/
def descElemsOf : HNode → List HNode
  | .text _ => []
  | .elem _ _ cs => elemsIn cs

def elemsIn : List HNode → List HNode
  | [] => []
  | n :: ns =>
    (match n with
     | .elem .. => [n]
     | .text _ => []) ++ descElemsOf n ++ elemsIn ns

end

/-- All elements of the document including the root. -/
def domElems (root : HNode) : List HNode := elemsIn [root]

/-- First element of a node list (used for the next-element sibling). -/
def firstElem : List HNode → Option HNode
  | [] => none
  | .elem t a cs :: _ => some (.elem t a cs)
  | .text _ :: ns => firstElem ns

mutual

/-- Every element of a node (its descendants) or of a node list paired
with its next element sibling (what jQuery `.next()` returns), in
document order. -/
def elemsNextOf : HNode → List (HNode × Option HNode)
  | .text _ => []
  | .elem _ _ cs => elemsNext cs

def elemsNext : List HNode → List (HNode × Option HNode)
  | [] => []
  | n :: ns =>
    (match n with
     | .elem .. => [(n, firstElem ns)]
     | .text _ => []) ++ elemsNextOf n ++ elemsNext ns

end

mutual

/-- Elements having a direct element child satisfying `pred`, in
document order: the deduplicated parent set that `.parent()` produces
for the matched-children selection.  (The source dedups keeping
first-occurrence order of the matched children, which coincides with
document order of the parents except when a matched child's parent
encloses another matched child.) -/
def parentsOf (pred : HNode → Bool) : HNode → List HNode
  | .text _ => []
  | .elem t a cs =>
    (if cs.any (fun c => isElem c && pred c) then [HNode.elem t a cs] else [])
    ++ parentsIn pred cs

def parentsIn (pred : HNode → Bool) : List HNode → List HNode
  | [] => []
  | n :: ns => parentsOf pred n ++ parentsIn pred ns

end

mutual

/-- Elements having a strict ancestor satisfying `pred` (the flag says
whether such an ancestor is already above), in document order (models a
descendant selector under an ancestor selector). -/
def elemsUnderOf (pred : HNode → Bool) : Bool → HNode → List HNode
  | _, .text _ => []
  | flag, .elem t a cs => elemsUnderIn pred (flag || pred (.elem t a cs)) cs

def elemsUnderIn (pred : HNode → Bool) : Bool → List HNode → List HNode
  | _, [] => []
  | flag, n :: ns =>
    (match n with
     | .elem .. => if flag then [n] else []
     | .text _ => []) ++ elemsUnderOf pred flag n ++ elemsUnderIn pred flag ns

end

/-! ### Static tables of the source -/

/-- The `COMMON_LOCATIONS` table: normalized municipality name to Hemnet
location id. -/
def COMMON_LOCATIONS : List (String × String) :=
  [("botkyrka", "17885"),
   ("danderyd", "17892"),
   ("ekerö", "17896"),
   ("göteborg", "17920"),
   ("haninge", "17928"),
   ("helsingborg", "17932"),
   ("huddinge", "17936"),
   ("järfälla", "17951"),
   ("jönköping", "17748"),
   ("lidingö", "17846"),
   ("linköping", "17847"),
   ("lund", "17987"),
   ("malmö", "17989"),
   ("nacka", "17853"),
   ("norrköping", "18002"),
   ("norrtälje", "18003"),
   ("salem", "18019"),
   ("sigtuna", "18020"),
   ("sollentuna", "18027"),
   ("solna", "18028"),
   ("stockholm", "17744"),
   ("sundbyberg", "18042"),
   ("södertälje", "17775"),
   ("tyresö", "17792"),
   ("täby", "17793"),
   ("upplands väsby", "17798"),
   ("upplands-väsby", "17798"),
   ("uppsala", "17745"),
   ("vallentuna", "17804"),
   ("värmdö", "17818"),
   ("västerås", "17821"),
   ("örebro", "17757"),
   ("österåker", "17769")]

/-- The `PROPERTY_TYPES` table: user-facing property type to Hemnet
item-type token. -/
def PROPERTY_TYPES : List (String × String) :=
  [("villa", "villa"),
   ("house", "villa"),
   ("apartment", "bostadsratt"),
   ("lägenhet", "bostadsratt"),
   ("bostadsrätt", "bostadsratt"),
   ("townhouse", "radhus"),
   ("radhus", "radhus"),
   ("holiday", "fritidsboende"),
   ("fritidshus", "fritidsboende"),
   ("plot", "tomt"),
   ("tomt", "tomt"),
   ("farm", "gard"),
   ("gård", "gard")]

/-- The `SORT_ORDERS` table. -/
def SORT_ORDERS : List (String × String) :=
  [("newest", "newest"),
   ("oldest", "oldest"),
   ("cheapest", "price_asc"),
   ("expensive", "price_desc"),
   ("largest", "size_desc"),
   ("smallest", "size_asc"),
   ("lowest_fee", "fee_asc"),
   ("highest_fee", "fee_desc")]

/-- The `daysMap` table inside `buildSearchUrl`. -/
def DAYS_MAP : List (Nat × String) :=
  [(1, "1d"), (3, "3d"), (7, "1w"), (14, "2w"), (30, "1m")]

/-! ### Query builder (`buildSearchUrl`)

`SearchOptions` mirrors the TS interface; numeric fields are modelled as
natural numbers (the tool schema passes integers).  JS truthiness in the
`if (options.x)` guards is translated explicitly: an absent field, the
number `0`, `false` and the empty string are all falsy. -/

/-- The `newConstruction` enum of `SearchOptions`. -/
inductive NewConstruction where
  | show
  | only
  | hide
deriving DecidableEq, Repr

/-- The `ncMap` values inside `buildSearchUrl`. -/
def ncValue : NewConstruction → String
  | .show => "1"
  | .only => "2"
  | .hide => "0"

/-- The `openHouse` enum of `SearchOptions`; `buildSearchUrl` appends its
string value directly. -/
inductive OpenHouse where
  | today
  | tomorrow
  | weekend
deriving DecidableEq, Repr

/-- The query-string value of an `openHouse` choice. -/
def ohValue : OpenHouse → String
  | .today => "today"
  | .tomorrow => "tomorrow"
  | .weekend => "weekend"

/-- The `SearchOptions` interface (all fields optional). -/
structure SearchOptions where
  locationId : Option String := none
  minRooms : Option Nat := none
  maxRooms : Option Nat := none
  minPrice : Option Nat := none
  maxPrice : Option Nat := none
  minArea : Option Nat := none
  maxArea : Option Nat := none
  maxFee : Option Nat := none
  propertyTypes : Option (List String) := none
  newConstruction : Option NewConstruction := none
  keywords : Option String := none
  openHouse : Option OpenHouse := none
  hasBalcony : Option Bool := none
  hasElevator : Option Bool := none
  daysListed : Option Nat := none
  sortOrder : Option String := none
deriving Repr

/-- `if (options.x) params.append(name, String(options.x))` for an
optional number: appended only when present and non-zero (`0` is falsy
in JS). -/
def natParam (name : String) : Option Nat → List (String × String)
  | some n => if n = 0 then [] else [(name, toString n)]
  | none => []

/-- `if (options.x) params.append(name, options.x)` for an optional
string: appended only when present and non-empty. -/
def strParam (name : String) : Option String → List (String × String)
  | some s => if s = "" then [] else [(name, s)]
  | none => []

/-- `if (options.x) params.append(name, "1")` for an optional boolean. -/
def boolParam (name : String) : Option Bool → List (String × String)
  | some true => [(name, "1")]
  | some false => []
  | none => []

/-- The `item_types[]` parameters: one per element of a non-empty
`propertyTypes` array, each value mapped through `PROPERTY_TYPES`
(lower-cased key) with the raw value as fallback.  (The source's
`PROPERTY_TYPES[key] || type` is an object-literal property access, so
for the property names inherited from `Object.prototype` the program
would emit the stringified inherited value where the model emits the
raw input; this divergence is value-level only — parameter names and
counts, the subjects of the statements below, agree for all inputs.) -/
def itemTypeParams : Option (List String) → List (String × String)
  | some ts =>
    if ts.length > 0 then
      ts.map fun t => ("item_types[]", (PROPERTY_TYPES.lookup (jsToLower t)).getD t)
    else []
  | none => []

/-- The `published` parameter: the `daysMap` bucket when the value is one
of 1/3/7/14/30, the raw number otherwise; `0` is falsy and appends
nothing. -/
def publishedParam : Option Nat → List (String × String)
  | some n => if n = 0 then [] else [("published", (DAYS_MAP.lookup n).getD (toString n))]
  | none => []

/-- The `order` parameter: mapped through `SORT_ORDERS` (lower-cased key)
with the raw string as fallback; the empty string is falsy.  (As with
`itemTypeParams`, the source's `SORT_ORDERS[key] || s` would pass the
stringified inherited `Object.prototype` value for those key names
where the model passes the raw input — a value-level divergence that
leaves parameter names and counts unchanged.) -/
def orderParam : Option String → List (String × String)
  | some s =>
    if s = "" then [] else [("order", (SORT_ORDERS.lookup (jsToLower s)).getD s)]
  | none => []

/-- The `new_construction` parameter. -/
def ncParam : Option NewConstruction → List (String × String)
  | some nc => [("new_construction", ncValue nc)]
  | none => []

/-- The `upcoming_open_house` parameter. -/
def ohParam : Option OpenHouse → List (String × String)
  | some oh => [("upcoming_open_house", ohValue oh)]
  | none => []

/-- The name/value pairs appended to `URLSearchParams` by
`buildSearchUrl`, in the order the source appends them. -/
def buildSearchParams (o : SearchOptions) : List (String × String) :=
  strParam "location_ids[]" o.locationId
  ++ natParam "rooms_min" o.minRooms
  ++ natParam "rooms_max" o.maxRooms
  ++ natParam "price_min" o.minPrice
  ++ natParam "price_max" o.maxPrice
  ++ natParam "living_area_min" o.minArea
  ++ natParam "living_area_max" o.maxArea
  ++ natParam "fee_max" o.maxFee
  ++ itemTypeParams o.propertyTypes
  ++ ncParam o.newConstruction
  ++ strParam "keywords" o.keywords
  ++ ohParam o.openHouse
  ++ boolParam "balcony" o.hasBalcony
  ++ boolParam "elevator" o.hasElevator
  ++ publishedParam o.daysListed
  ++ orderParam o.sortOrder

/-- The UTF-8 bytes of a character (for percent-encoding). -/
def utf8Bytes (c : Char) : List Nat :=
  let n := c.toNat
  if n < 0x80 then [n]
  else if n < 0x800 then
    [0xC0 + n / 0x40, 0x80 + n % 0x40]
  else if n < 0x10000 then
    [0xE0 + n / 0x1000, 0x80 + n / 0x40 % 0x40, 0x80 + n % 0x40]
  else
    [0xF0 + n / 0x40000, 0x80 + n / 0x1000 % 0x40, 0x80 + n / 0x40 % 0x40,
     0x80 + n % 0x40]

/-- Upper-case hex digit of a value below 16. -/
def hexDigit (n : Nat) : Char :=
  if n < 10 then Char.ofNat ('0'.toNat + n)
  else Char.ofNat ('A'.toNat + (n - 10))

/-- One character under `application/x-www-form-urlencoded` serialization
(as `URLSearchParams.toString()`): space becomes `+`, ASCII
alphanumerics and `*`, `-`, `.`, `_` pass through, everything else is
percent-encoded per UTF-8 byte. -/
def formEncodeChar (c : Char) : String :=
  if c = ' ' then "+"
  else if c.isAlphanum || c = '*' || c = '-' || c = '.' || c = '_' then
    String.mk [c]
  else
    String.join ((utf8Bytes c).map fun b =>
      String.mk ['%', hexDigit (b / 16), hexDigit (b % 16)])

/-- `application/x-www-form-urlencoded` serialization of a string. -/
def formEncode (s : String) : String :=
  String.join (s.toList.map formEncodeChar)

/-- `URLSearchParams.toString()`. -/
def paramsToString (ps : List (String × String)) : String :=
  String.intercalate "&" (ps.map fun p => formEncode p.1 ++ "=" ++ formEncode p.2)

/-- `buildSearchUrl`: the full search URL for the active-listings
surface. -/
def buildSearchUrl (o : SearchOptions) : String :=
  "https://www.hemnet.se/bostader?" ++ paramsToString (buildSearchParams o)

/-! ### Location resolver (`findLocationId`)

The remote autocomplete call is modelled as an input: `AutoResp` is the
outcome of the single `fetchJson` call on the autocomplete URL — the
call threw (`netFailure`), returned a JSON value that is not an array
(`nonArray`), or returned an array of hits.  `findLocationId` returns
its result together with the number of autocomplete queries issued, so
that the no-network fast path is visible in the model. -/

/-- A hit of the autocomplete response, per the TS annotation
`{ id: number; name: string; location_type?: string }`. -/
structure AutoHit where
  id : Int
  name : String
  location_type : Option String
deriving DecidableEq, Repr

/-- Outcome of the single autocomplete `fetchJson` call. -/
inductive AutoResp where
  | netFailure
  | nonArray
  | arr (hits : List AutoHit)
deriving DecidableEq, Repr

/-- The `LocationResult` record. -/
structure LocationResult where
  id : String
  name : String
  type : String
deriving DecidableEq, Repr

/-- The property names an object literal inherits from
`Object.prototype`: the access `COMMON_LOCATIONS[key]` yields a truthy
inherited value for each of these (a function, or for `__proto__` the
prototype object itself) even though the key is not an own property of
the table. -/
def OBJECT_PROTOTYPE_KEYS : List String :=
  ["constructor", "hasOwnProperty", "isPrototypeOf", "propertyIsEnumerable",
   "toLocaleString", "toString", "valueOf", "__defineGetter__",
   "__defineSetter__", "__lookupGetter__", "__lookupSetter__", "__proto__"]

/-- `findLocationId`: static-table fast path, else one autocomplete
query.  Second component: how many autocomplete queries were issued.
The guard `if (COMMON_LOCATIONS[normalized])` is a JS property access
on an object literal, so it is truthy both for the table's own keys and
for the properties inherited from `Object.prototype`; either way the
early return fires with zero autocomplete queries.  On an inherited hit
the program stores the inherited object itself in `id` (a function at
runtime, the TS `string` annotation notwithstanding); the model records
an opaque tag in its place, and no statement inspects that value.
`first.name || location` and `first.location_type || "unknown"` are the
JS truthiness fallbacks of the source. -/
def findLocationId (location : String) (net : AutoResp) :
    Option LocationResult × Nat :=
  let normalized := jsTrim (jsToLower location)
  match COMMON_LOCATIONS.lookup normalized with
  | some cid => (some ⟨cid, location, "kommun"⟩, 0)
  | none =>
    if OBJECT_PROTOTYPE_KEYS.contains normalized then
      (some ⟨"[Object.prototype." ++ normalized ++ "]", location, "kommun"⟩, 0)
    else
      match net with
      | .netFailure => (none, 1)
      | .nonArray => (none, 1)
      | .arr [] => (none, 1)
      | .arr (first :: _) =>
        (some ⟨toString first.id,
              if first.name = "" then location else first.name,
              match first.location_type with
              | some t => if t = "" then "unknown" else t
              | none => "unknown"⟩,
         1)

/-! ### Page fetcher (`fetchPage`)

`RenderOutcome` is the outcome of `fetchViaRenderer`: either one of its
failure modes (missing configuration, HTTP error, `error` field, empty
`html` — all collapsed into `renderFailed` with the thrown message), or
the rendered markup, carried as the parsed tree paired with the raw
string. -/

/-- Outcome of `fetchViaRenderer` for the requested URL. -/
inductive RenderOutcome where
  | renderFailed (msg : String)
  | rendered (doc : List HNode) (html : String)

/-- The error message of the bot-verification branch of `fetchPage`. -/
def botChallengeMsg : String :=
  "Hemnet is showing a bot verification challenge. Please try again later."

/-- `fetchPage`: renderer result, then the bot-challenge check on the raw
markup; a thrown error is an `Except.error`. -/
def fetchPage (r : RenderOutcome) : Except String (List HNode × String) :=
  match r with
  | .renderFailed msg => .error msg
  | .rendered doc html =>
    if sContains html "Verify you are human" then
      .error botChallengeMsg
    else
      .ok (doc, html)

/-! ### Summary extraction (`searchHemnet`) -/

/-- The `Listing` record of a search-result summary. -/
structure Listing where
  title : String
  url : String
  price : String
  rooms : String
  area : String
  monthlyFee : String
  description : String
  location : String
  imageUrl : String
deriving DecidableEq, Repr

/-- Does the element match the selector `a[href*="/bostad/"]`? -/
def isBostadAnchor (n : HNode) : Bool :=
  tagOf n = "a" &&
    (match getAttr n "href" with
     | some h => sContains h "/bostad/"
     | none => false)

/-- The anchors the summary extraction iterates over:
`$('a[href*="/bostad/"]')` over the loaded document, in document
order. -/
def bostadAnchors (doc : List HNode) : List HNode :=
  (domElems (loadDoc doc)).filter isBostadAnchor

/-- The descendant elements of a node (`$el.find("*")`). -/
def descendantElems (n : HNode) : List HNode :=
  match n with
  | .elem _ _ cs => elemsIn cs
  | .text _ => []

/-- The `href` attribute with the JS `|| ""` default. -/
def hrefOf (n : HNode) : String := (getAttr n "href").getD ""

/-- Monthly-fee extraction of the summary scraper: the fee regex applied
to the concatenated direct text nodes of each descendant element in
turn, first match wins. -/
def feeOfAnchor (a : HNode) : Option (String × List String) :=
  (descendantElems a).findSome? fun e => searchRe reFee (directText e)

/-- First `srcset` candidate URL:
`srcset.split(",")[0]?.trim().split(/\s+/)[0] || ""`. -/
def srcsetFirst (srcset : String) : String :=
  String.mk ((jsTrim (String.mk (srcset.toList.takeWhile fun c =>
    c ≠ ','))).toList.takeWhile fun c => !c.isWhitespace)

/-- Thumbnail candidate of one `img` element: the first of
`src`/`srcset`-first/`data-src` that is an absolute URL on a hemnet
host. -/
def imgCandidate (img : HNode) : Option String :=
  let src := (getAttr img "src").getD ""
  let dataSrc := (getAttr img "data-src").getD ""
  [src, srcsetFirst ((getAttr img "srcset").getD ""), dataSrc].find? fun c =>
    sStartsWith c "http" && sContains c "hemnet"

/-- Thumbnail extraction: first `img` descendant with a good candidate. -/
def imageUrlOfAnchor (a : HNode) : String :=
  (((descendantElems a).filter fun e => tagOf e = "img").findSome? imgCandidate).getD ""

/-- The summary record built for one matched anchor (the body of the
`each` callback of `searchHemnet`, given the anchor and its `href`). -/
def mkListing (locationName href : String) (a : HNode) : Listing :=
  let allText := nodeText a
  { title := jsTrim ((((descendantElems a).find? fun e => tagOf e = "h2").map nodeText).getD "")
    url := if sStartsWith href "http" then href else "https://www.hemnet.se" ++ href
    price := ((searchRe rePrice allText).map fun m => jsTrim m.1).getD ""
    rooms := ((searchRe reRooms allText).map fun m => m.1).getD ""
    area := ((searchRe reArea allText).map fun m => m.1).getD ""
    monthlyFee := ((feeOfAnchor a).map fun m => m.1).getD ""
    description :=
      jsTake (jsTrim ((((descendantElems a).find? fun e => tagOf e = "p").map nodeText).getD "")) 200
    location := locationName
    imageUrl := imageUrlOfAnchor a }

/-- The `each` callback over one selected anchor, with its guard clauses
(`if (!href || !href.includes("/bostad/")) return` and
`if (title || href)`). -/
def listingOf (locationName : String) (a : HNode) : Option Listing :=
  match getAttr a "href" with
  | none => none
  | some href =>
    if href = "" then none
    else if !sContains href "/bostad/" then none
    else
      let L := mkListing locationName href a
      if L.title ≠ "" ∨ href ≠ "" then some L else none

/-- Summary extraction of `searchHemnet` over parsed markup: the matched
anchors, capped by `.slice(0, 25)`, each through the `each` callback. -/
def extractListings (doc : List HNode) (locationName : String) : List Listing :=
  ((bostadAnchors doc).take 25).filterMap (listingOf locationName)

/-! ### Detail extraction (`getListingDetails`)

Each field of the detail record is extracted by its own function over
the loaded document `root` (and, for the raw-markup regexes, the raw
string `html`), mirroring the per-field cascades of the source.
Coordinates are kept as the two matched substrings (the source applies
`parseFloat` to them; floating point is outside the model). -/

/-- The `ListingDetails` record. -/
structure ListingDetails where
  title : String
  location : String
  price : String
  pricePerSqm : String
  propertyType : String
  tenureType : String
  rooms : String
  area : String
  balcony : String
  patio : String
  floor : String
  buildYear : String
  energyClass : String
  monthlyFee : String
  runningCosts : String
  description : String
  viewingTimes : List String
  agentName : String
  agentAgency : String
  brokerUrl : String
  imageCount : Nat
  imageUrls : List String
  visitCount : String
  distanceToWater : String
  downPayment : String
  areaPriceTrend : String
  areaAvgPricePerSqm : String
  hasFloorPlan : Bool
  hasBankIdBidding : Bool
  coordinates : Option (String × String)
deriving DecidableEq, Repr

/-- The `dt` elements of the document paired with their next element
sibling (`$("dt")` with jQuery `.next`), in document order. -/
def dtsOf (root : HNode) : List (HNode × Option HNode) :=
  (elemsNext [root]).filter fun pr => tagOf pr.1 = "dt"

/-- `getDefinitionByTerm`: text of the `dd` element following the first
`dt` whose text contains `term`, or the empty string. -/
def getDefinitionByTerm (root : HNode) (term : String) : String :=
  match (dtsOf root).find? fun pr => sContains (nodeText pr.1) term with
  | some (_, some (.elem "dd" _ cs)) => jsTrim (listText cs)
  | some _ => ""
  | none => ""

/-- `$("h1").first().text().trim()`. -/
def extractTitle (root : HNode) : String :=
  jsTrim ((((domElems root).find? fun e => tagOf e = "h1").map nodeText).getD "")

/-- Location: text of the parents of the `Visa på karta` anchors with the
first `Visa på karta` occurrence removed. -/
def extractLocation (root : HNode) : String :=
  let pred := fun e => tagOf e = "a" && sContains (nodeText e) "Visa på karta"
  if (domElems root).any pred then
    jsTrim (sReplaceFirst (String.join ((parentsIn pred [root]).map nodeText))
      "Visa på karta" "")
  else ""

/-- Price: first direct text node (per element, document order) whose
trimmed text fully matches `\d[\d\s]*kr` and has no slash; fallback is
the labelled-price regex over the raw markup. -/
def extractPrice (root : HNode) (html : String) : String :=
  let cands := (domElems root).flatMap directTextNodes
  let found := cands.find? fun s =>
    (searchRe reTrailingKr (jsTrim s)).isSome &&
    ((matchStart reFullKr (jsTrim s)).isSome && !sContains (jsTrim s) "/")
  match found with
  | some s => jsTrim s
  | none =>
    match searchRe rePriceFallback html with
    | some m => jsTrim (m.2.headD "")
    | none => ""

/-- Description: text of the first paragraph longer than 200 characters. -/
def extractDescription (root : HNode) : String :=
  ((((domElems root).filter fun e => tagOf e = "p").findSome? fun e =>
    let t := jsTrim (nodeText e)
    if t.length > 200 then some t else none)).getD ""

/-- Viewing times: matches of the time pattern in the text after a
`Visningstider` heading; fallback scans `button` labels containing
`kl`. -/
def extractViewingTimes (root : HNode) : List String :=
  let headers := (elemsNext [root]).filter fun pr =>
    tagOf pr.1 = "h2" && sContains (nodeText pr.1) "Visningstider"
  let fromHeader :=
    if headers.length > 0 then
      matchAllRe reViewing
        (String.join (headers.map fun pr => ((pr.2.map nodeText).getD "")))
    else []
  if fromHeader.length = 0 then
    (((domElems root).filter fun e =>
        tagOf e = "button" && sContains (nodeText e) "kl").filterMap fun b =>
      (searchRe reViewingBtn (jsTrim (nodeText b))).map fun m => jsTrim m.1)
  else fromHeader

/-- Agent name: first `h2` below an agent profile link
(`a[href*="/maklare/"][href*="/salda"] h2`). -/
def extractAgentName (root : HNode) : String :=
  let pred := fun e => tagOf e = "a" &&
    (match getAttr e "href" with
     | some h => sContains h "/maklare/" && sContains h "/salda"
     | none => false)
  ((((elemsUnderIn pred false [root]).find? fun e => tagOf e = "h2").map fun e =>
    jsTrim (nodeText e))).getD ""

/-- The first agency profile link
(`a[href*="/maklare/"]:not([href*="/salda"])`). -/
def agencyLinkOf (root : HNode) : Option HNode :=
  (domElems root).find? fun e => tagOf e = "a" &&
    (match getAttr e "href" with
     | some h => sContains h "/maklare/" && !sContains h "/salda"
     | none => false)

/-- Agency name from the first paragraph inside the agency link. -/
def agentAgencyPrimary (root : HNode) : String :=
  match agencyLinkOf root with
  | some l =>
    ((((descendantElems l).find? fun e => tagOf e = "p").map fun e =>
      jsTrim (nodeText e))).getD ""
  | none => ""

/-- Broker URL from the agency link `href`. -/
def extractBrokerUrl (root : HNode) : String :=
  match agencyLinkOf root with
  | some l =>
    let h := hrefOf l
    if h ≠ "" then
      (if sStartsWith h "http" then h else "https://www.hemnet.se" ++ h)
    else ""
  | none => ""

/-- Agency name with the keyword-paragraph fallback. -/
def extractAgentAgency (root : HNode) : String :=
  let primary := agentAgencyPrimary root
  if primary = "" then
    ((((domElems root).find? fun e => tagOf e = "p" &&
        (sContains (nodeText e) "Mäklarbyrå" ||
         sContains (nodeText e) "Fastighetsbyrå")).map fun e =>
      jsTrim (nodeText e))).getD ""
  else primary

/-- Accumulate image sources with the dedup and the cap of 10. -/
def accImageUrls (srcs : List String) : List String :=
  srcs.foldl (fun acc src =>
    if src ≠ "" && !acc.contains src && acc.length < 10 then acc ++ [src]
    else acc) []

/-- Gallery image URLs from `src` on the hemnet image hosts, with the
lazy-load `data-src` fallback pass. -/
def extractImageUrls (root : HNode) : List String :=
  let primary := accImageUrls
    (((domElems root).filter fun e => tagOf e = "img" &&
        (match getAttr e "src" with
         | some s => sContains s "bilder.hemnet.se" || sContains s "images.hemnet.se"
         | none => false)).map fun e => (getAttr e "src").getD "")
  if primary.length = 0 then
    accImageUrls
      (((domElems root).filter fun e => tagOf e = "img" &&
          (match getAttr e "data-src" with
           | some s => sContains s "hemnet"
           | none => false)).map fun e => (getAttr e "data-src").getD "")
  else primary

/-- Image count: first element whose trimmed text fully matches
`(\d+)\s*bilder`, parsed as a number. -/
def extractImageCount (root : HNode) : Nat :=
  (((domElems root).findSome? fun e =>
    (matchStart reBilder (jsTrim (nodeText e))).bind fun m =>
      natOfDigits (m.2.headD ""))).getD 0

/-- Distance to water: trimmed text of the first element containing
`km till vatten`. -/
def extractDistanceToWater (root : HNode) : String :=
  (((domElems root).findSome? fun e =>
    let t := jsTrim (nodeText e)
    if sContains t "km till vatten" then some t else none)).getD ""

/-- Down payment from the raw-markup regex. -/
def extractDownPayment (html : String) : String :=
  (((searchRe reKontantinsats html).map fun m => jsTrim (m.2.headD ""))).getD ""

/-- Area price trend from the raw-markup regex. -/
def extractAreaPriceTrend (html : String) : String :=
  (((searchRe reTrend html).map fun m => jsTrim (m.2.headD ""))).getD ""

/-- Area average price per m² from the raw-markup regexes (primary and
alternative shape). -/
def extractAreaAvgPricePerSqm (html : String) : String :=
  match searchRe reAvgPrice html with
  | some m => jsTrim (m.2.headD "")
  | none => (((searchRe reAvgPriceAlt html).map fun m => jsTrim (m.2.headD ""))).getD ""

/-- Floor-plan flag: a `button` whose text contains `Planritning`. -/
def extractHasFloorPlan (root : HNode) : Bool :=
  (domElems root).any fun e => tagOf e = "button" && sContains (nodeText e) "Planritning"

/-- Coordinates: the `ll=` pair of the first Google Maps link, as matched
substrings. -/
def extractCoordinates (root : HNode) : Option (String × String) :=
  match (domElems root).find? fun e => tagOf e = "a" &&
      (match getAttr e "href" with
       | some h => sContains h "maps.google.com"
       | none => false) with
  | some l =>
    match searchRe reCoords (hrefOf l) with
    | some m => some (m.2.headD "", (m.2.drop 1).headD "")
    | none => none
  | none => none

/-- The full detail-extraction pass of `getListingDetails` over the
parsed markup and the raw markup string. -/
def extractDetails (doc : List HNode) (html : String) : ListingDetails :=
  let root := loadDoc doc
  { title := extractTitle root
    location := extractLocation root
    price := extractPrice root html
    pricePerSqm := getDefinitionByTerm root "Pris/m²"
    propertyType := getDefinitionByTerm root "Bostadstyp"
    tenureType := getDefinitionByTerm root "Upplåtelseform"
    rooms := getDefinitionByTerm root "Antal rum"
    area := getDefinitionByTerm root "Boarea"
    balcony := getDefinitionByTerm root "Balkong"
    patio := getDefinitionByTerm root "Uteplats"
    floor := getDefinitionByTerm root "Våning"
    buildYear := getDefinitionByTerm root "Byggår"
    energyClass := getDefinitionByTerm root "Energiklass"
    monthlyFee := getDefinitionByTerm root "Avgift"
    runningCosts := getDefinitionByTerm root "Driftkostnad"
    description := extractDescription root
    viewingTimes := extractViewingTimes root
    agentName := extractAgentName root
    agentAgency := extractAgentAgency root
    brokerUrl := extractBrokerUrl root
    imageCount := extractImageCount root
    imageUrls := extractImageUrls root
    visitCount := getDefinitionByTerm root "Antal besök"
    distanceToWater := extractDistanceToWater root
    downPayment := extractDownPayment html
    areaPriceTrend := extractAreaPriceTrend html
    areaAvgPricePerSqm := extractAreaAvgPricePerSqm html
    hasFloorPlan := extractHasFloorPlan root
    hasBankIdBidding := sContains (jsToLower html) "budgivning med bankid"
    coordinates := extractCoordinates root }

/-- The thrown message of the URL-shape guard of `getListingDetails`. -/
def invalidUrlMsg : String :=
  "Invalid Hemnet listing URL. URL must contain \x27hemnet.se/bostad/\x27"

/-- The thrown message of the removed-listing guard. -/
def removedMsg : String := "This listing has been removed from Hemnet."

/-- `getListingDetails`: URL-shape guard, one `fetchPage`, removal guard,
then the extraction pass.  Second component: number of page fetches
issued. -/
def getListingDetails (url : String) (r : RenderOutcome) :
    Except String ListingDetails × Nat :=
  if !sContains url "hemnet.se/bostad/" then (.error invalidUrlMsg, 0)
  else
    match fetchPage r with
    | .error e => (.error e, 1)
    | .ok (doc, html) =>
      if sContains html "Sidan hittades inte" ||
         sContains html "Den här bostaden finns inte längre" then
        (.error removedMsg, 1)
      else (.ok (extractDetails doc html), 1)

/-! ### Definitions used by the statements -/

/-- The fixed query-parameter name table of the Query Builder. -/
def PARAM_NAMES : List String :=
  ["location_ids[]", "rooms_min", "rooms_max", "price_min", "price_max",
   "living_area_min", "living_area_max", "fee_max", "item_types[]",
   "new_construction", "keywords", "upcoming_open_house", "balcony",
   "elevator", "published", "order"]

/-- JS truthiness of an optional number (`undefined` and `0` are falsy). -/
def truthyNat : Option Nat → Bool
  | some n => n ≠ 0
  | none => false

/-- JS truthiness of an optional string (`undefined` and `""` are falsy). -/
def truthyStr : Option String → Bool
  | some s => s ≠ ""
  | none => false

/-- JS truthiness of an optional boolean. -/
def truthyBool : Option Bool → Bool
  | some b => b
  | none => false

/-- Number of parameters with the given name. -/
def paramCount (ps : List (String × String)) (name : String) : Nat :=
  (ps.filter fun p => p.1 = name).length

/-- No `dt` element of the loaded document has text containing `term`. -/
abbrev noDtWith (doc : List HNode) (term : String) : Prop :=
  ∀ pr ∈ dtsOf (loadDoc doc), sContains (nodeText pr.1) term = false

/-- The labelled terms the detail extractor looks up, paired with the
field of `ListingDetails` each one populates. -/
def termFields : List (String × (ListingDetails → String)) :=
  [("Bostadstyp", ListingDetails.propertyType),
   ("Upplåtelseform", ListingDetails.tenureType),
   ("Antal rum", ListingDetails.rooms),
   ("Boarea", ListingDetails.area),
   ("Balkong", ListingDetails.balcony),
   ("Uteplats", ListingDetails.patio),
   ("Våning", ListingDetails.floor),
   ("Byggår", ListingDetails.buildYear),
   ("Energiklass", ListingDetails.energyClass),
   ("Avgift", ListingDetails.monthlyFee),
   ("Driftkostnad", ListingDetails.runningCosts),
   ("Pris/m²", ListingDetails.pricePerSqm),
   ("Antal besök", ListingDetails.visitCount)]

/-- The `ListingDetails` value in which every field has its initial
default: empty strings, empty lists, zero, `false`, no coordinates. -/
def emptyListingDetails : ListingDetails :=
  { title := "", location := "", price := "", pricePerSqm := "",
    propertyType := "", tenureType := "", rooms := "", area := "",
    balcony := "", patio := "", floor := "", buildYear := "",
    energyClass := "", monthlyFee := "", runningCosts := "",
    description := "", viewingTimes := [], agentName := "",
    agentAgency := "", brokerUrl := "", imageCount := 0, imageUrls := [],
    visitCount := "", distanceToWater := "", downPayment := "",
    areaPriceTrend := "", areaAvgPricePerSqm := "", hasFloorPlan := false,
    hasBankIdBidding := false, coordinates := none }

/-! ### Helper lemmas -/

/-- `paramCount` distributes over appended parameter segments. -/
theorem paramCount_append (a b : List (String × String)) (n : String) :
    paramCount (a ++ b) n = paramCount a n + paramCount b n := by
  simp [paramCount, List.filter_append]

/-- Count contributed by a `natParam` segment. -/
theorem paramCount_natParam (nm n2 : String) (v : Option Nat) :
    paramCount (natParam nm v) n2 =
      if nm = n2 then (if truthyNat v then 1 else 0) else 0 := by
  cases v with
  | none => simp [natParam, paramCount, truthyNat]
  | some n =>
    by_cases hn : n = 0 <;> by_cases he : nm = n2 <;>
      simp [natParam, paramCount, truthyNat, hn, he]

/-- Count contributed by a `strParam` segment. -/
theorem paramCount_strParam (nm n2 : String) (v : Option String) :
    paramCount (strParam nm v) n2 =
      if nm = n2 then (if truthyStr v then 1 else 0) else 0 := by
  cases v with
  | none => simp [strParam, paramCount, truthyStr]
  | some s =>
    by_cases hs : s = "" <;> by_cases he : nm = n2 <;>
      simp [strParam, paramCount, truthyStr, hs, he]

/-- Count contributed by a `boolParam` segment. -/
theorem paramCount_boolParam (nm n2 : String) (v : Option Bool) :
    paramCount (boolParam nm v) n2 =
      if nm = n2 then (if truthyBool v then 1 else 0) else 0 := by
  cases v with
  | none => simp [boolParam, paramCount, truthyBool]
  | some b =>
    cases b <;> by_cases he : nm = n2 <;>
      simp [boolParam, paramCount, truthyBool, he]

/-- Count contributed by the `new_construction` segment. -/
theorem paramCount_ncParam (n2 : String) (v : Option NewConstruction) :
    paramCount (ncParam v) n2 =
      if "new_construction" = n2 then (if v.isSome then 1 else 0) else 0 := by
  cases v with
  | none => simp [ncParam, paramCount]
  | some nc => by_cases he : "new_construction" = n2 <;> simp [ncParam, paramCount, he]

/-- Count contributed by the `upcoming_open_house` segment. -/
theorem paramCount_ohParam (n2 : String) (v : Option OpenHouse) :
    paramCount (ohParam v) n2 =
      if "upcoming_open_house" = n2 then (if v.isSome then 1 else 0) else 0 := by
  cases v with
  | none => simp [ohParam, paramCount]
  | some oh => by_cases he : "upcoming_open_house" = n2 <;> simp [ohParam, paramCount, he]

/-- Count contributed by the `item_types[]` segment: one parameter per
element of a present `propertyTypes` array. -/
theorem paramCount_itemTypeParams (n2 : String) (v : Option (List String)) :
    paramCount (itemTypeParams v) n2 =
      if "item_types[]" = n2 then (v.getD []).length else 0 := by
  cases v with
  | none => simp [itemTypeParams, paramCount]
  | some ts =>
    by_cases he : "item_types[]" = n2 <;>
      rcases ts with _ | ⟨t, ts⟩ <;>
      simp [itemTypeParams, paramCount, he, List.filter_map, Function.comp]

/-- Count contributed by the `published` segment. -/
theorem paramCount_publishedParam (n2 : String) (v : Option Nat) :
    paramCount (publishedParam v) n2 =
      if "published" = n2 then (if truthyNat v then 1 else 0) else 0 := by
  cases v with
  | none => simp [publishedParam, paramCount, truthyNat]
  | some n =>
    by_cases hn : n = 0 <;> by_cases he : "published" = n2 <;>
      simp [publishedParam, paramCount, truthyNat, hn, he]

/-- Count contributed by the `order` segment. -/
theorem paramCount_orderParam (n2 : String) (v : Option String) :
    paramCount (orderParam v) n2 =
      if "order" = n2 then (if truthyStr v then 1 else 0) else 0 := by
  cases v with
  | none => simp [orderParam, paramCount, truthyStr]
  | some s =>
    by_cases hs : s = "" <;> by_cases he : "order" = n2 <;>
      simp [orderParam, paramCount, truthyStr, hs, he]

/-- Every parameter of a `natParam` segment carries its name. -/
theorem name_of_mem_natParam {p : String × String} {nm : String} {v : Option Nat}
    (h : p ∈ natParam nm v) : p.1 = nm := by
  cases v with
  | none => simp [natParam] at h
  | some n =>
    by_cases hn : n = 0 <;> simp [natParam, hn] at h
    simp [h]

/-- Every parameter of a `strParam` segment carries its name. -/
theorem name_of_mem_strParam {p : String × String} {nm : String} {v : Option String}
    (h : p ∈ strParam nm v) : p.1 = nm := by
  cases v with
  | none => simp [strParam] at h
  | some s =>
    by_cases hs : s = "" <;> simp [strParam, hs] at h
    simp [h]

/-- Every parameter of a `boolParam` segment carries its name. -/
theorem name_of_mem_boolParam {p : String × String} {nm : String} {v : Option Bool}
    (h : p ∈ boolParam nm v) : p.1 = nm := by
  cases v with
  | none => simp [boolParam] at h
  | some b =>
    cases b <;> simp [boolParam] at h
    simp [h]

/-- Every parameter of the `item_types[]` segment carries that name. -/
theorem name_of_mem_itemTypeParams {p : String × String} {v : Option (List String)}
    (h : p ∈ itemTypeParams v) : p.1 = "item_types[]" := by
  cases v with
  | none => simp [itemTypeParams] at h
  | some ts =>
    by_cases hl : ts.length > 0
    · simp only [itemTypeParams, if_pos hl, List.mem_map] at h
      obtain ⟨x, _, hx⟩ := h
      simp [← hx]
    · simp [itemTypeParams, if_neg hl] at h

/-- Every parameter of the `new_construction` segment carries that name. -/
theorem name_of_mem_ncParam {p : String × String} {v : Option NewConstruction}
    (h : p ∈ ncParam v) : p.1 = "new_construction" := by
  cases v with
  | none => simp [ncParam] at h
  | some nc => simp [ncParam] at h; simp [h]

/-- Every parameter of the `upcoming_open_house` segment carries that
name. -/
theorem name_of_mem_ohParam {p : String × String} {v : Option OpenHouse}
    (h : p ∈ ohParam v) : p.1 = "upcoming_open_house" := by
  cases v with
  | none => simp [ohParam] at h
  | some oh => simp [ohParam] at h; simp [h]

/-- Every parameter of the `published` segment carries that name. -/
theorem name_of_mem_publishedParam {p : String × String} {v : Option Nat}
    (h : p ∈ publishedParam v) : p.1 = "published" := by
  cases v with
  | none => simp [publishedParam] at h
  | some n =>
    by_cases hn : n = 0 <;> simp [publishedParam, hn] at h
    simp [h]

/-- Every parameter of the `order` segment carries that name. -/
theorem name_of_mem_orderParam {p : String × String} {v : Option String}
    (h : p ∈ orderParam v) : p.1 = "order" := by
  cases v with
  | none => simp [orderParam] at h
  | some s =>
    by_cases hs : s = "" <;> simp [orderParam, hs] at h
    simp [h]

/-- A `filterMap` over a list on which the function is total agrees with
the corresponding `map`. -/
theorem filterMap_eq_map_of_forall {α β : Type} {f : α → Option β} {g : α → β} :
    ∀ l : List α, (∀ a ∈ l, f a = some (g a)) → l.filterMap f = l.map g := by
  intro l
  induction l with
  | nil => intro _; rfl
  | cons a l ih =>
    intro h
    rw [List.filterMap_cons, h a (List.mem_cons_self a l), List.map_cons,
      ih fun x hx => h x (List.mem_cons_of_mem a hx)]

/-- `getDefinitionByTerm` yields the empty string when no `dt` text
contains the term. -/
theorem getDefinitionByTerm_eq_empty (root : HNode) (term : String)
    (h : ∀ pr ∈ dtsOf root, sContains (nodeText pr.1) term = false) :
    getDefinitionByTerm root term = "" := by
  unfold getDefinitionByTerm
  have hn : (dtsOf root).find? (fun pr => sContains (nodeText pr.1) term) = none := by
    refine List.find?_eq_none.mpr fun pr hpr => ?_
    simp [h pr hpr]
  rw [hn]

/-! ### Claim theorems -/

/-- C3: if the markup returned by the rendering backend contains the
substring "Verify you are human" anywhere, then `fetchPage` throws the
bot-verification ("try again later") error regardless of any other
content, and `fetchPage` never returns such markup to its caller. -/
theorem fetchPage_bot_challenge (doc : List HNode) (html : String)
    (h : sContains html "Verify you are human" = true) :
    fetchPage (.rendered doc html) = .error botChallengeMsg ∧
    ∀ (r : RenderOutcome) (p : List HNode × String),
      fetchPage r = .ok p → sContains p.2 "Verify you are human" = false := by
  constructor
  · simp [fetchPage, h]
  · intro r p hok
    cases r with
    | renderFailed msg => simp [fetchPage] at hok
    | rendered d2 h2 =>
      by_cases hc : sContains h2 "Verify you are human" = true
      · simp [fetchPage, hc] at hok
      · rw [Bool.not_eq_true] at hc
        simp [fetchPage, hc] at hok
        rw [← hok]
        exact hc

/-- Witness for C3: concrete markup carrying the challenge marker among
other content makes `fetchPage` fail with the bot-verification error. -/
theorem fetchPage_bot_challenge_witness :
    sContains "<p>Nice flat</p>Verify you are human<p>3 rum</p>"
      "Verify you are human" = true ∧
    fetchPage (.rendered [] "<p>Nice flat</p>Verify you are human<p>3 rum</p>") =
      .error botChallengeMsg :=
  ⟨by decide, (fetchPage_bot_challenge [] _ (by decide)).1⟩

/-- C5: a location name whose lower-cased and trimmed form is a key of
the static `COMMON_LOCATIONS` table resolves to the table id for that
key with zero autocomplete queries, whatever the network outcome would
have been. -/
theorem findLocationId_table_hit (loc cid : String) (net : AutoResp)
    (h : COMMON_LOCATIONS.lookup (jsTrim (jsToLower loc)) = some cid) :
    findLocationId loc net = (some ⟨cid, loc, "kommun"⟩, 0) := by
  simp [findLocationId, h]

/-- Witness for C5 at the name "Göteborg" (upper-case initial, Swedish
letter) under a network outcome that would fail. -/
theorem findLocationId_table_hit_witness :
    COMMON_LOCATIONS.lookup (jsTrim (jsToLower "Göteborg")) = some "17920" ∧
    findLocationId "Göteborg" .netFailure =
      (some ⟨"17920", "Göteborg", "kommun"⟩, 0) :=
  ⟨by decide, findLocationId_table_hit "Göteborg" "17920" .netFailure (by decide)⟩

/-- C10: on a static-table hit, the returned record keeps the caller's
original input string as `name` (original casing and whitespace) and
has the constant "kommun" as `type`. -/
theorem findLocationId_table_hit_name_type (loc cid : String) (net : AutoResp)
    (h : COMMON_LOCATIONS.lookup (jsTrim (jsToLower loc)) = some cid) :
    (findLocationId loc net).1.map LocationResult.name = some loc ∧
    (findLocationId loc net).1.map LocationResult.type = some "kommun" := by
  simp [findLocationId, h]

/-- Witness for C10 at a non-canonical spelling: the returned `name` is
the input "  STOCKHOLM " verbatim, not the table key "stockholm". -/
theorem findLocationId_table_hit_name_type_witness :
    (findLocationId "  STOCKHOLM " .netFailure).1.map LocationResult.name =
      some "  STOCKHOLM " ∧
    (findLocationId "  STOCKHOLM " .netFailure).1.map LocationResult.type =
      some "kommun" :=
  ⟨(findLocationId_table_hit_name_type "  STOCKHOLM " "17744" .netFailure (by decide)).1,
   (findLocationId_table_hit_name_type "  STOCKHOLM " "17744" .netFailure (by decide)).2⟩

/-- C6 counterexample: the claim fails in two ways.  The name
"constructor" is not a key of the static table, yet the property access
`COMMON_LOCATIONS[normalized]` hits the inherited
`Object.prototype.constructor` and the early return fires with zero
autocomplete requests instead of exactly one.  And on a genuine miss
whose single hit reports the empty string as its `location_type`, the
returned type is the substituted "unknown", not the reported type
passed through verbatim. -/
theorem findLocationId_miss_claim_fails :
    COMMON_LOCATIONS.lookup (jsTrim (jsToLower "constructor")) = none ∧
    (findLocationId "constructor" .netFailure).2 = 0 ∧
    (findLocationId "constructor" (.arr [⟨1, "X", some "t"⟩])).2 = 0 ∧
    COMMON_LOCATIONS.lookup (jsTrim (jsToLower "Kiruna")) = none ∧
    (findLocationId "Kiruna" (.arr [⟨12345, "Kiruna", some ""⟩])).1 =
      some ⟨"12345", "Kiruna", "unknown"⟩ ∧
    ("unknown" : String) ≠ "" :=
  ⟨by decide, by decide, by decide, by decide, by decide, by decide⟩

/-- C6 (amended): for an input whose normalized form is neither a key of
the static table nor one of the property names inherited from
`Object.prototype`, `findLocationId` issues exactly one autocomplete
query; a network failure, a non-array response or an empty array yields
`none` (no retry); a non-empty array yields a record built from the
first hit, whose `id` is the stringified hit id and whose `type` is the
hit's reported type verbatim when that type is a non-empty string, and
"unknown" when it is missing or empty. -/
theorem findLocationId_miss_single_query (loc : String) (net : AutoResp)
    (h : COMMON_LOCATIONS.lookup (jsTrim (jsToLower loc)) = none)
    (hp : OBJECT_PROTOTYPE_KEYS.contains (jsTrim (jsToLower loc)) = false) :
    (findLocationId loc net).2 = 1 ∧
    (net = .netFailure → (findLocationId loc net).1 = none) ∧
    (net = .nonArray → (findLocationId loc net).1 = none) ∧
    (net = .arr [] → (findLocationId loc net).1 = none) ∧
    (∀ first rest, net = .arr (first :: rest) →
      ∃ r, (findLocationId loc net).1 = some r ∧
        r.id = toString first.id ∧
        (∀ t, first.location_type = some t → t ≠ "" → r.type = t) ∧
        ((first.location_type = none ∨ first.location_type = some "") →
          r.type = "unknown")) := by
  have hp2 : jsTrim (jsToLower loc) ∉ OBJECT_PROTOTYPE_KEYS := by simpa using hp
  refine ⟨?_, ?_, ?_, ?_, ?_⟩
  · cases net with
    | netFailure => simp [findLocationId, h, hp2]
    | nonArray => simp [findLocationId, h, hp2]
    | arr hits => cases hits <;> simp [findLocationId, h, hp2]
  · intro he; subst he; simp [findLocationId, h, hp2]
  · intro he; subst he; simp [findLocationId, h, hp2]
  · intro he; subst he; simp [findLocationId, h, hp2]
  · intro first rest he
    subst he
    simp only [findLocationId, h, hp, Bool.false_eq_true, if_false]
    refine ⟨_, rfl, rfl, ?_, ?_⟩
    · intro t ht hne
      simp [ht, hne]
    · intro hd
      rcases hd with h1 | h1 <;> simp [h1]

/-- Witness for C6: a genuine miss (not a table key, not an inherited
property name) issues one query, and a failing network gives no
result. -/
theorem findLocationId_miss_single_query_witness :
    (findLocationId "Kiruna" (.arr [⟨7, "Kiruna kommun", some "kommun"⟩])).2 = 1 ∧
    (findLocationId "Kiruna" .netFailure).1 = none :=
  ⟨(findLocationId_miss_single_query "Kiruna" _ (by decide) (by decide)).1,
   (findLocationId_miss_single_query "Kiruna" .netFailure
     (by decide) (by decide)).2.1 rfl⟩

/-- C7: the filter with minimum rooms 2 and maximum price 3000000 and no
location yields exactly the query string `rooms_min=2&price_max=3000000`
with no `location_ids[]` parameter. -/
theorem buildSearchUrl_rooms_price_only :
    buildSearchUrl { minRooms := some 2, maxPrice := some 3000000 } =
      "https://www.hemnet.se/bostader?rooms_min=2&price_max=3000000" ∧
    paramCount (buildSearchParams { minRooms := some 2, maxPrice := some 3000000 })
      "location_ids[]" = 0 :=
  ⟨by decide, by decide⟩

/-- C9: a URL without the substring "hemnet.se/bostad/" makes
`getListingDetails` fail with the invalid-URL error before any fetch:
zero fetches, whatever the renderer would have returned. -/
theorem getListingDetails_invalid_url (url : String) (r : RenderOutcome)
    (h : sContains url "hemnet.se/bostad/" = false) :
    getListingDetails url r = (.error invalidUrlMsg, 0) := by
  simp [getListingDetails, h]

/-- Witness for C9 at a non-listing URL. -/
theorem getListingDetails_invalid_url_witness :
    sContains "https://example.com/listing/123" "hemnet.se/bostad/" = false ∧
    getListingDetails "https://example.com/listing/123"
      (.rendered [] "<html></html>") = (.error invalidUrlMsg, 0) :=
  ⟨by decide, getListingDetails_invalid_url _ _ (by decide)⟩

/-- C8: when no single element's concatenated direct text content
matches the fee pattern — in particular when the digits of a fee and
the "kr/mån" marker sit in text nodes that are not adjacent within one
element's direct text content — the extracted `monthlyFee` is the empty
string: the fee regex is applied per element over its own text nodes
and never merges digit runs across elements. -/
theorem mkListing_fee_empty (locName href : String) (a : HNode)
    (h : ∀ e ∈ descendantElems a, searchRe reFee (directText e) = none) :
    (mkListing locName href a).monthlyFee = "" := by
  have hf : feeOfAnchor a = none := by
    unfold feeOfAnchor
    exact List.findSome?_eq_none_iff.mpr h
  simp [mkListing, hf]

/-- Witness for C8: "1 200" and "kr/mån" in two separate elements yield
no fee. -/
theorem mkListing_fee_empty_witness :
    (∀ e ∈ descendantElems (.elem "a" [("href", "/bostad/1")]
        [.elem "span" [] [.text "1 200"], .elem "span" [] [.text "kr/mån"]]),
      searchRe reFee (directText e) = none) ∧
    (mkListing "Sverige" "/bostad/1" (.elem "a" [("href", "/bostad/1")]
        [.elem "span" [] [.text "1 200"], .elem "span" [] [.text "kr/mån"]])).monthlyFee
      = "" :=
  ⟨by decide, mkListing_fee_empty "Sverige" "/bostad/1" _ (by decide)⟩

/-- Every selected anchor passes all guards of the `each` callback, so
it contributes exactly the record `mkListing` builds for it. -/
theorem listingOf_of_anchor {locName : String} {a : HNode}
    (h : isBostadAnchor a = true) :
    listingOf locName a = some (mkListing locName (hrefOf a) a) := by
  unfold isBostadAnchor at h
  cases hh : getAttr a "href" with
  | none => rw [hh] at h; simp at h
  | some href =>
    rw [hh] at h
    simp only [Bool.and_eq_true, decide_eq_true_eq] at h
    obtain ⟨-, hc⟩ := h
    have hne : href ≠ "" := by
      intro he
      rw [he] at hc
      exact absurd hc (by decide)
    unfold listingOf
    rw [hh]
    simp [hne, hc, hrefOf, hh]

/-- C4: markup with at least 25 anchors matching the listing-link
pattern (href containing "/bostad/") yields exactly 25 summary records,
and the record list is the image, in document order, of the first 25
matched anchors. -/
theorem extractListings_cap_and_order (doc : List HNode) (locName : String)
    (h : 25 ≤ (bostadAnchors doc).length) :
    extractListings doc locName =
      ((bostadAnchors doc).take 25).map (fun a => mkListing locName (hrefOf a) a) ∧
    (extractListings doc locName).length = 25 := by
  have hmem : ∀ a ∈ (bostadAnchors doc).take 25, isBostadAnchor a = true := by
    intro a ha
    exact (List.mem_filter.mp (List.mem_of_mem_take ha)).2
  have heq : extractListings doc locName =
      ((bostadAnchors doc).take 25).map (fun a => mkListing locName (hrefOf a) a) := by
    unfold extractListings
    exact filterMap_eq_map_of_forall _ fun a ha => listingOf_of_anchor (hmem a ha)
  refine ⟨heq, ?_⟩
  rw [heq, List.length_map, List.length_take]
  exact Nat.min_eq_left h

/-- Witness for C4: 30 matching anchors yield exactly 25 records. -/
theorem extractListings_cap_and_order_witness :
    25 ≤ (bostadAnchors (List.replicate 30 (.elem "a" [("href", "/bostad/x")] []))).length ∧
    (extractListings (List.replicate 30 (.elem "a" [("href", "/bostad/x")] []))
      "Sverige").length = 25 :=
  ⟨by decide,
   (extractListings_cap_and_order (List.replicate 30 (.elem "a" [("href", "/bostad/x")] []))
     "Sverige" (by decide)).2⟩

/-- C2: for each labelled term the detail extractor looks up, markup
with no `dt` element whose text contains that term yields the empty
string in the corresponding `ListingDetails` field; the extraction
functions are total (nothing is thrown), and on empty markup the whole
pipeline returns the all-default record: empty strings and lists, zero
`imageCount`, `false` flags, no coordinates. -/
theorem extractDetails_missing_term_defaults (doc : List HNode) (html : String) :
    (∀ tf ∈ termFields, noDtWith doc tf.1 → tf.2 (extractDetails doc html) = "") ∧
    getListingDetails "https://www.hemnet.se/bostad/test" (.rendered [] "") =
      (.ok emptyListingDetails, 1) := by
  constructor
  · intro tf htf hno
    have hterm := getDefinitionByTerm_eq_empty (loadDoc doc) tf.1 hno
    simp only [termFields, List.mem_cons, List.not_mem_nil, or_false] at htf
    rcases htf with h | h | h | h | h | h | h | h | h | h | h | h | h <;>
      subst h <;> exact hterm
  · rfl

/-- Witness for C2: empty markup has no `dt` containing "Bostadstyp" and
the extracted property type is empty. -/
theorem extractDetails_missing_term_defaults_witness :
    ListingDetails.propertyType (extractDetails [] "") = "" :=
  (extractDetails_missing_term_defaults [] "").1
    ("Bostadstyp", ListingDetails.propertyType) (List.mem_cons_self _ _) (by decide)

/-- C1 counterexample: the filter with `minRooms` set to `0` has the
field present (set), yet the builder emits no `rooms_min` parameter —
the JS truthiness guards drop falsy field values, so "every field
present produces exactly one parameter" fails as stated. -/
theorem buildSearchParams_falsy_field_dropped :
    ({ minRooms := some 0 } : SearchOptions).minRooms.isSome = true ∧
    paramCount (buildSearchParams { minRooms := some 0 }) "rooms_min" = 0 :=
  ⟨rfl, by decide⟩

/-- C1 (amended): every query-parameter name emitted by the builder
belongs to the fixed name table, and every field set to a truthy value
(a non-zero number, `true`, a non-empty string, any present enum value)
produces exactly one corresponding parameter — one `item_types[]`
parameter per element of a present `propertyTypes` array — while absent
fields and fields set to falsy values (zero, `false`, the empty string)
contribute no parameter. -/
theorem buildSearchParams_names_and_counts (o : SearchOptions) :
    (∀ p ∈ buildSearchParams o, p.1 ∈ PARAM_NAMES) ∧
    paramCount (buildSearchParams o) "location_ids[]" =
      (if truthyStr o.locationId then 1 else 0) ∧
    paramCount (buildSearchParams o) "rooms_min" =
      (if truthyNat o.minRooms then 1 else 0) ∧
    paramCount (buildSearchParams o) "rooms_max" =
      (if truthyNat o.maxRooms then 1 else 0) ∧
    paramCount (buildSearchParams o) "price_min" =
      (if truthyNat o.minPrice then 1 else 0) ∧
    paramCount (buildSearchParams o) "price_max" =
      (if truthyNat o.maxPrice then 1 else 0) ∧
    paramCount (buildSearchParams o) "living_area_min" =
      (if truthyNat o.minArea then 1 else 0) ∧
    paramCount (buildSearchParams o) "living_area_max" =
      (if truthyNat o.maxArea then 1 else 0) ∧
    paramCount (buildSearchParams o) "fee_max" =
      (if truthyNat o.maxFee then 1 else 0) ∧
    paramCount (buildSearchParams o) "item_types[]" =
      (o.propertyTypes.getD []).length ∧
    paramCount (buildSearchParams o) "new_construction" =
      (if o.newConstruction.isSome then 1 else 0) ∧
    paramCount (buildSearchParams o) "keywords" =
      (if truthyStr o.keywords then 1 else 0) ∧
    paramCount (buildSearchParams o) "upcoming_open_house" =
      (if o.openHouse.isSome then 1 else 0) ∧
    paramCount (buildSearchParams o) "balcony" =
      (if truthyBool o.hasBalcony then 1 else 0) ∧
    paramCount (buildSearchParams o) "elevator" =
      (if truthyBool o.hasElevator then 1 else 0) ∧
    paramCount (buildSearchParams o) "published" =
      (if truthyNat o.daysListed then 1 else 0) ∧
    paramCount (buildSearchParams o) "order" =
      (if truthyStr o.sortOrder then 1 else 0) := by
  constructor
  · intro p hp
    simp only [buildSearchParams, List.mem_append] at hp
    rcases hp with
      ((((((((((((((h|h)|h)|h)|h)|h)|h)|h)|h)|h)|h)|h)|h)|h)|h)|h
    · rw [name_of_mem_strParam h]; decide
    · rw [name_of_mem_natParam h]; decide
    · rw [name_of_mem_natParam h]; decide
    · rw [name_of_mem_natParam h]; decide
    · rw [name_of_mem_natParam h]; decide
    · rw [name_of_mem_natParam h]; decide
    · rw [name_of_mem_natParam h]; decide
    · rw [name_of_mem_natParam h]; decide
    · rw [name_of_mem_itemTypeParams h]; decide
    · rw [name_of_mem_ncParam h]; decide
    · rw [name_of_mem_strParam h]; decide
    · rw [name_of_mem_ohParam h]; decide
    · rw [name_of_mem_boolParam h]; decide
    · rw [name_of_mem_boolParam h]; decide
    · rw [name_of_mem_publishedParam h]; decide
    · rw [name_of_mem_orderParam h]; decide
  · refine ⟨?_, ?_, ?_, ?_, ?_, ?_, ?_, ?_, ?_, ?_, ?_, ?_, ?_, ?_, ?_, ?_⟩ <;>
      simp only [buildSearchParams, paramCount_append, paramCount_natParam,
        paramCount_strParam, paramCount_boolParam, paramCount_ncParam,
        paramCount_ohParam, paramCount_itemTypeParams, paramCount_publishedParam,
        paramCount_orderParam] <;>
      simp

/-- Witness for C1 at a concrete filter: a set numeric field and a set
boolean flag each emit exactly one parameter of the table name, and an
absent field emits none. -/
theorem buildSearchParams_names_and_counts_witness :
    ("rooms_min" : String) ∈ PARAM_NAMES ∧
    paramCount (buildSearchParams { minRooms := some 2, hasBalcony := some true })
      "rooms_min" = 1 ∧
    paramCount (buildSearchParams { minRooms := some 2, hasBalcony := some true })
      "balcony" = 1 ∧
    paramCount (buildSearchParams { minRooms := some 2, hasBalcony := some true })
      "price_max" = 0 := by
  refine ⟨?_, ?_, ?_, ?_⟩
  · exact (buildSearchParams_names_and_counts
      { minRooms := some 2, hasBalcony := some true }).1 ("rooms_min", "2") (by decide)
  · simpa [truthyNat] using (buildSearchParams_names_and_counts
      { minRooms := some 2, hasBalcony := some true }).2.2.1
  · simpa [truthyBool] using (buildSearchParams_names_and_counts
      { minRooms := some 2, hasBalcony := some true }).2.2.2.2.2.2.2.2.2.2.2.2.2.1
  · simpa [truthyNat] using (buildSearchParams_names_and_counts
      { minRooms := some 2, hasBalcony := some true }).2.2.2.2.2.1
